import Mathlib

/-
Verification of the Model100Layout keyboard-firmware configuration sketch
(src/Model100Layout/Model100Layout.ino) against its specification.

The sketch declares per-layer key layouts (KEYMAPS), macro handlers
(versionInfoMacro, anyKeyMacro, macroAction), a host-power-management
handler, magic-combo bindings (USE_MAGIC_COMBOS) and a keymap-source
toggle.  The layer-resolution algorithm, the combo state machine and the
key-transition predicates live in the external Kaleidoscope framework;
where a definition below models such framework behaviour it is marked
"Modelled from the spec:" and follows the specification's words.
Everything else is translated directly from the sketch.
-/

/-- KeyValue bound to a (layer, position) pair.  `transparent` is the
sketch's `___` (fall through to the next lower active layer), `blocked`
is `XXX` (no output, masking lower layers), `plain` is an ordinary
`Key_*` code named by its source token, `consumer` a `Consumer_*` media
code, `mod` a modifier-wrapped key (`LSHIFT(..)`, `LCTRL(..)`,
`LGUI(..)`), and `layerShift` / `layerLock` the `ShiftToLayer` /
`LockLayer` keys. -/
inductive Key where
  | transparent
  | blocked
  | plain (name : String)
  | consumer (name : String)
  | mod (modifier : String) (k : Key)
  | layerShift (layer : Nat)
  | layerLock (layer : Nat)
deriving DecidableEq

/-- Layer indices, in the order of the sketch's layer enum
`{ SPECIAL, PRIMARY, SYMBOL, NAVIGATION, GAMING, NUMPAD }`. -/
def SPECIAL : Nat := 0

/-- Layer index of the PRIMARY layer (second entry of the layer enum). -/
def PRIMARY : Nat := 1

/-- Layer index of the SYMBOL layer. -/
def SYMBOL : Nat := 2

/-- Layer index of the NAVIGATION layer. -/
def NAVIGATION : Nat := 3

/-- Layer index of the GAMING layer. -/
def GAMING : Nat := 4

/-- Layer index of the NUMPAD layer. -/
def NUMPAD : Nat := 5

/-- The sketch's `XXX` blocked-key marker. -/
def XXX : Key := Key.blocked

/-- The sketch's transparent-key marker, written `___` in the source. -/
def TRNS : Key := Key.transparent

/-- The `LSHIFT(k)` modifier wrapper. -/
def LSHIFT (k : Key) : Key := Key.mod "LeftShift" k

/-- The `LCTRL(k)` modifier wrapper. -/
def LCTRL (k : Key) : Key := Key.mod "LeftControl" k

/-- The `LGUI(k)` modifier wrapper. -/
def LGUI (k : Key) : Key := Key.mod "LeftGui" k

/-- A `ShiftToLayer(n)` key. -/
def ShiftToLayer (n : Nat) : Key := Key.layerShift n

/-- A `LockLayer(n)` key. -/
def LockLayer (n : Nat) : Key := Key.layerLock n

def Key_Esc : Key := Key.plain "Esc"
def Key_Escape : Key := Key.plain "Escape"
def Key_1 : Key := Key.plain "1"
def Key_2 : Key := Key.plain "2"
def Key_3 : Key := Key.plain "3"
def Key_4 : Key := Key.plain "4"
def Key_5 : Key := Key.plain "5"
def Key_6 : Key := Key.plain "6"
def Key_7 : Key := Key.plain "7"
def Key_8 : Key := Key.plain "8"
def Key_9 : Key := Key.plain "9"
def Key_0 : Key := Key.plain "0"
def Key_F1 : Key := Key.plain "F1"
def Key_F2 : Key := Key.plain "F2"
def Key_F3 : Key := Key.plain "F3"
def Key_F4 : Key := Key.plain "F4"
def Key_F5 : Key := Key.plain "F5"
def Key_F6 : Key := Key.plain "F6"
def Key_F7 : Key := Key.plain "F7"
def Key_F8 : Key := Key.plain "F8"
def Key_F9 : Key := Key.plain "F9"
def Key_F10 : Key := Key.plain "F10"
def Key_F11 : Key := Key.plain "F11"
def Key_F12 : Key := Key.plain "F12"
def Key_A : Key := Key.plain "A"
def Key_B : Key := Key.plain "B"
def Key_C : Key := Key.plain "C"
def Key_D : Key := Key.plain "D"
def Key_E : Key := Key.plain "E"
def Key_F : Key := Key.plain "F"
def Key_G : Key := Key.plain "G"
def Key_H : Key := Key.plain "H"
def Key_I : Key := Key.plain "I"
def Key_J : Key := Key.plain "J"
def Key_K : Key := Key.plain "K"
def Key_L : Key := Key.plain "L"
def Key_M : Key := Key.plain "M"
def Key_N : Key := Key.plain "N"
def Key_O : Key := Key.plain "O"
def Key_P : Key := Key.plain "P"
def Key_Q : Key := Key.plain "Q"
def Key_R : Key := Key.plain "R"
def Key_S : Key := Key.plain "S"
def Key_T : Key := Key.plain "T"
def Key_U : Key := Key.plain "U"
def Key_V : Key := Key.plain "V"
def Key_W : Key := Key.plain "W"
def Key_X : Key := Key.plain "X"
def Key_Y : Key := Key.plain "Y"
def Key_Z : Key := Key.plain "Z"
def Key_Backtick : Key := Key.plain "Backtick"
def Key_Tab : Key := Key.plain "Tab"
def Key_CapsLock : Key := Key.plain "CapsLock"
def Key_LeftAlt : Key := Key.plain "LeftAlt"
def Key_LeftGui : Key := Key.plain "LeftGui"
def Key_RightGui : Key := Key.plain "RightGui"
def Key_LeftControl : Key := Key.plain "LeftControl"
def Key_RightControl : Key := Key.plain "RightControl"
def Key_LeftShift : Key := Key.plain "LeftShift"
def Key_RightShift : Key := Key.plain "RightShift"
def Key_RightAlt : Key := Key.plain "RightAlt"
def Key_Backspace : Key := Key.plain "Backspace"
def Key_Spacebar : Key := Key.plain "Spacebar"
def Key_Enter : Key := Key.plain "Enter"
def Key_Equals : Key := Key.plain "Equals"
def Key_Semicolon : Key := Key.plain "Semicolon"
def Key_Quote : Key := Key.plain "Quote"
def Key_Comma : Key := Key.plain "Comma"
def Key_Period : Key := Key.plain "Period"
def Key_Slash : Key := Key.plain "Slash"
def Key_Minus : Key := Key.plain "Minus"
def Key_Delete : Key := Key.plain "Delete"
def Key_LeftParen : Key := Key.plain "LeftParen"
def Key_RightParen : Key := Key.plain "RightParen"
def Key_LeftCurlyBracket : Key := Key.plain "LeftCurlyBracket"
def Key_RightCurlyBracket : Key := Key.plain "RightCurlyBracket"
def Key_LeftBracket : Key := Key.plain "LeftBracket"
def Key_RightBracket : Key := Key.plain "RightBracket"
def Key_Pipe : Key := Key.plain "Pipe"
def Key_Backslash : Key := Key.plain "Backslash"
def Key_UpArrow : Key := Key.plain "UpArrow"
def Key_DownArrow : Key := Key.plain "DownArrow"
def Key_LeftArrow : Key := Key.plain "LeftArrow"
def Key_RightArrow : Key := Key.plain "RightArrow"
def Key_Home : Key := Key.plain "Home"
def Key_End : Key := Key.plain "End"
def Key_KeypadSubtract : Key := Key.plain "KeypadSubtract"
def Key_KeypadAdd : Key := Key.plain "KeypadAdd"
def Key_KeypadMultiply : Key := Key.plain "KeypadMultiply"
def Key_KeypadDivide : Key := Key.plain "KeypadDivide"
def Consumer_ScanNextTrack : Key := Key.consumer "ScanNextTrack"
def Consumer_PlaySlashPause : Key := Key.consumer "PlaySlashPause"
def Consumer_ScanPreviousTrack : Key := Key.consumer "ScanPreviousTrack"

/-- A layer's keymap as the physical 4-row by 16-column switch matrix:
row r of the list is matrix row r, entry c of that row is column c. -/
abbrev LayerGrid : Type := List (List Key)

/-- The framework's `KEYMAP_STACKED` layout macro for the Model 100:
takes the keys in the sketch's stacked textual order (left half: four
key rows, four thumb keys, palm key; then the right half likewise) and
produces the 4-by-16 matrix grid.  The parameter names `rRcC` are the
macro's own names for the matrix position each argument lands on; the
spec's anchor examples (PRIMARY (3,0) = Key_LeftAlt; the combo chord
names Left Fn = R3C6, Prog = R0C0, LED = R0C6) fix this mapping. -/
def KEYMAP_STACKED
    (r0c0 r0c1 r0c2 r0c3 r0c4 r0c5 r0c6 : Key)
    (r1c0 r1c1 r1c2 r1c3 r1c4 r1c5 r1c6 : Key)
    (r2c0 r2c1 r2c2 r2c3 r2c4 r2c5 : Key)
    (r3c0 r3c1 r3c2 r3c3 r3c4 r3c5 r2c6 : Key)
    (r0c7 r1c7 r2c7 r3c7 : Key)
    (r3c6 : Key)
    (r0c9 r0c10 r0c11 r0c12 r0c13 r0c14 r0c15 : Key)
    (r1c9 r1c10 r1c11 r1c12 r1c13 r1c14 r1c15 : Key)
    (r2c10 r2c11 r2c12 r2c13 r2c14 r2c15 : Key)
    (r2c9 r3c10 r3c11 r3c12 r3c13 r3c14 r3c15 : Key)
    (r3c8 r2c8 r1c8 r0c8 : Key)
    (r3c9 : Key) : LayerGrid :=
  [[r0c0, r0c1, r0c2, r0c3, r0c4, r0c5, r0c6, r0c7, r0c8, r0c9, r0c10, r0c11, r0c12, r0c13, r0c14, r0c15],
   [r1c0, r1c1, r1c2, r1c3, r1c4, r1c5, r1c6, r1c7, r1c8, r1c9, r1c10, r1c11, r1c12, r1c13, r1c14, r1c15],
   [r2c0, r2c1, r2c2, r2c3, r2c4, r2c5, r2c6, r2c7, r2c8, r2c9, r2c10, r2c11, r2c12, r2c13, r2c14, r2c15],
   [r3c0, r3c1, r3c2, r3c3, r3c4, r3c5, r3c6, r3c7, r3c8, r3c9, r3c10, r3c11, r3c12, r3c13, r3c14, r3c15]]

/-- KEYMAPS[SPECIAL], arguments in the sketch's textual order. -/
def KEYMAPS_SPECIAL : LayerGrid := KEYMAP_STACKED
  TRNS Key_F1 Key_F2 Key_F3 Key_F4 Key_F5 Key_F6
  TRNS XXX XXX XXX XXX Consumer_ScanNextTrack TRNS
  TRNS XXX XXX XXX XXX Consumer_PlaySlashPause
  TRNS TRNS XXX XXX XXX Consumer_ScanPreviousTrack XXX
  TRNS Key_Delete Key_Delete TRNS
  XXX
  Key_F7 Key_F8 Key_F9 Key_F10 Key_F11 Key_F12 (LockLayer GAMING)
  XXX XXX XXX XXX XXX XXX XXX
  TRNS (LGUI (LCTRL Key_LeftArrow)) XXX (LGUI (LCTRL Key_RightArrow)) XXX XXX
  TRNS TRNS XXX XXX XXX XXX XXX
  TRNS TRNS (LSHIFT Key_Minus) TRNS
  XXX

/-- KEYMAPS[PRIMARY], arguments in the sketch's textual order. -/
def KEYMAPS_PRIMARY : LayerGrid := KEYMAP_STACKED
  Key_Esc Key_1 Key_2 Key_3 Key_4 Key_5 Key_LeftGui
  Key_Backtick Key_Q Key_W Key_E Key_R Key_T Key_Tab
  Key_CapsLock Key_A Key_S Key_D Key_F Key_G
  Key_LeftAlt Key_Z Key_X Key_C Key_V Key_B Key_Escape
  Key_LeftControl Key_Backspace Key_Backspace Key_LeftShift
  (ShiftToLayer SYMBOL)
  Key_RightGui Key_6 Key_7 Key_8 Key_9 Key_0 (LockLayer NUMPAD)
  Key_Enter Key_Y Key_U Key_I Key_O Key_P Key_Equals
  Key_H Key_J Key_K Key_L Key_Semicolon Key_Quote
  Key_RightAlt Key_N Key_M Key_Comma Key_Period Key_Slash Key_Minus
  Key_RightShift Key_Spacebar Key_Spacebar Key_RightControl
  (ShiftToLayer NAVIGATION)

/-- KEYMAPS[SYMBOL], arguments in the sketch's textual order. -/
def KEYMAPS_SYMBOL : LayerGrid := KEYMAP_STACKED
  TRNS Key_F1 Key_F2 Key_F3 Key_F4 Key_F5 Key_F6
  TRNS (LSHIFT Key_4) (LSHIFT Key_2) Key_LeftParen Key_RightParen (LSHIFT Key_1) TRNS
  TRNS (LSHIFT Key_5) (LSHIFT Key_3) Key_LeftCurlyBracket Key_RightCurlyBracket (LSHIFT Key_Equals)
  TRNS TRNS XXX Key_LeftBracket Key_LeftBracket XXX XXX
  TRNS Key_Delete Key_Delete TRNS
  XXX
  Key_F7 Key_F8 Key_F9 Key_F10 Key_F11 Key_F12 TRNS
  (LCTRL Key_Enter) Key_Equals Key_Minus (LSHIFT Key_Comma) (LSHIFT Key_Period) XXX TRNS
  Key_Minus (LSHIFT Key_8) (LSHIFT Key_7) Key_Pipe TRNS TRNS
  TRNS TRNS Key_Backslash Key_Slash TRNS TRNS TRNS
  TRNS TRNS (LSHIFT Key_Minus) TRNS
  (ShiftToLayer SPECIAL)

/-- KEYMAPS[NAVIGATION], arguments in the sketch's textual order. -/
def KEYMAPS_NAVIGATION : LayerGrid := KEYMAP_STACKED
  TRNS Key_F1 Key_F2 Key_F3 Key_F4 Key_F5 Key_F6
  TRNS (LSHIFT Key_4) (LSHIFT Key_2) Key_LeftParen Key_RightParen (LSHIFT Key_1) TRNS
  TRNS (LSHIFT Key_5) (LSHIFT Key_3) Key_LeftCurlyBracket Key_RightCurlyBracket (LSHIFT Key_Equals)
  TRNS TRNS XXX Key_LeftBracket Key_RightBracket XXX XXX
  TRNS Key_Delete Key_Delete TRNS
  (ShiftToLayer SPECIAL)
  Key_F7 Key_F8 Key_F9 Key_F10 Key_F11 Key_F12 TRNS
  (LCTRL Key_Enter) XXX XXX Key_UpArrow Key_LeftBracket Key_RightBracket TRNS
  TRNS Key_LeftArrow Key_DownArrow Key_RightArrow TRNS TRNS
  TRNS TRNS Key_Home XXX Key_End XXX TRNS
  TRNS TRNS (LSHIFT Key_Minus) TRNS
  XXX

/-- KEYMAPS[GAMING], arguments in the sketch's textual order. -/
def KEYMAPS_GAMING : LayerGrid := KEYMAP_STACKED
  Key_Esc Key_1 Key_2 Key_3 Key_4 Key_5 Key_LeftGui
  XXX Key_Backtick Key_Q Key_W Key_E Key_R Key_T
  XXX Key_CapsLock Key_A Key_S Key_D Key_F
  XXX Key_LeftAlt Key_Z Key_X Key_C Key_V Key_B
  Key_LeftControl Key_Backspace Key_Backspace Key_LeftShift
  (ShiftToLayer SYMBOL)
  Key_RightGui Key_6 Key_7 Key_8 Key_9 Key_0 (LockLayer PRIMARY)
  Key_Enter Key_Y Key_U Key_I Key_O Key_P Key_Equals
  Key_H Key_J Key_K Key_L Key_Semicolon Key_Quote
  Key_RightAlt Key_N Key_M Key_Comma Key_Period Key_Slash Key_Minus
  Key_RightShift Key_Spacebar Key_Spacebar Key_RightControl
  (ShiftToLayer NAVIGATION)

/-- KEYMAPS[NUMPAD], arguments in the sketch's textual order. -/
def KEYMAPS_NUMPAD : LayerGrid := KEYMAP_STACKED
  TRNS TRNS TRNS TRNS TRNS TRNS TRNS
  TRNS TRNS TRNS TRNS TRNS TRNS TRNS
  TRNS TRNS TRNS TRNS TRNS TRNS
  TRNS TRNS TRNS TRNS TRNS TRNS TRNS
  TRNS TRNS TRNS TRNS
  TRNS
  TRNS TRNS Key_7 Key_8 Key_9 Key_KeypadSubtract TRNS
  TRNS TRNS Key_4 Key_5 Key_6 Key_KeypadAdd TRNS
  TRNS Key_1 Key_2 Key_3 Key_Equals TRNS
  TRNS TRNS Key_0 Key_Period Key_KeypadMultiply Key_KeypadDivide Key_Enter
  TRNS TRNS TRNS TRNS
  TRNS

/-- The sketch's KEYMAPS list, indexed by the layer enum order. -/
def KEYMAPS : List LayerGrid :=
  [KEYMAPS_SPECIAL, KEYMAPS_PRIMARY, KEYMAPS_SYMBOL,
   KEYMAPS_NAVIGATION, KEYMAPS_GAMING, KEYMAPS_NUMPAD]

/-- Entry of a layer grid at matrix position (row r, column c). -/
def entryAt (g : LayerGrid) (r c : Nat) : Option Key :=
  (g[r]?).bind (fun row => row[c]?)

/-- Outcome of layer resolution at one position:
`resolved k` an ordinary key, `noKey` output suppressed by a Blocked
entry, `configError` the spec's ConfigurationError (the active stack
was exhausted without a resolved value). -/
inductive Resolution where
  | resolved (k : Key)
  | noKey
  | configError
deriving DecidableEq

/-- Modelled from the spec: the framework's layer-stack resolver
(spec 4.1), which is not part of this repository.  The stack is listed
in check order, most-recently-activated layer first.  For each layer:
a `Blocked` entry stops resolution with no key, a `Transparent` entry
defers to the next lower layer, any other value resolves.  An exhausted
stack (or a position missing from a table, contrary to the full-table
invariant) is a ConfigurationError. -/
def resolveKey : List LayerGrid → Nat → Nat → Resolution
  | [], _, _ => Resolution.configError
  | g :: rest, r, c =>
    match entryAt g r c with
    | none => Resolution.configError
    | some k =>
      if k = Key.blocked then Resolution.noKey
      else if k = Key.transparent then resolveKey rest r c
      else Resolution.resolved k

/-- Key-transition state of a key event.  Modelled from the spec: the
framework delivers a key-state byte; the spec's MacroBinding model
abstracts it to the three transitions toggled-on / held / toggled-off. -/
inductive Transition where
  | toggledOn
  | held
  | toggledOff
deriving DecidableEq

/-- Modelled from the spec: the framework's keyToggledOn predicate,
true exactly on the toggled-on transition. -/
def keyToggledOn (s : Transition) : Bool := s = Transition.toggledOn

/-- Synthetic key carried by a key event: HID key code byte plus
modifier-flag byte (the fields read and written by `setKeyCode` and
`setFlags`). -/
structure EventKey where
  keyCode : Nat
  flags : Nat
deriving DecidableEq

/-- Key event passed to a macro handler: its transition state and its
key, which the handler may overwrite. -/
structure KeyEvent where
  state : Transition
  key : EventKey
deriving DecidableEq

/-- Modelled from the spec: the HID key code of `Key_A`, the first of
the fixed contiguous alphanumeric block (codes 4..29 are the 26 letters
A..Z, codes 30..39 the ten digits). -/
def Key_A_code : Nat := 4

/-- The fixed 36-symbol alphabet of HID key codes: 26 letter codes then
10 digit codes. -/
def alphanumericCodes : List Nat :=
  (List.range 26).map (fun i => 4 + i) ++ (List.range 10).map (fun i => 30 + i)

/-- anyKeyMacro from the sketch: on a toggled-on transition it sets the
event's key code to `Key_A.getKeyCode() + (uint8_t)(millis() % 36)` and
clears the flags; on any other transition it leaves the event alone.
The `millis()` clock reading is passed in as `m`; the stored key code
byte is reduced mod 256 as the uint8_t field does. -/
def anyKeyMacro (m : Nat) (event : KeyEvent) : KeyEvent :=
  if keyToggledOn event.state then
    { event with key := { keyCode := (Key_A_code + m % 36) % 256, flags := 0 } }
  else event

/-- versionInfoMacro from the sketch: on a toggled-on transition it
types the fixed firmware banner and then the firmware version string
(the two `Macros.type` calls, returned here as the list of typed
strings); on any other transition it types nothing.  The framework's
KALEIDOSCOPE_FIRMWARE_VERSION constant is passed in as `version`. -/
def versionInfoMacro (version : String) (key_state : Transition) : List String :=
  if keyToggledOn key_state then
    ["Keyboardio Model 100 - Firmware version ", version]
  else []

/-- The sketch's macro id enum: MACRO_VERSION_INFO = 0. -/
def MACRO_VERSION_INFO : Nat := 0

/-- The sketch's macro id enum: MACRO_ANY = 1. -/
def MACRO_ANY : Nat := 1

/-- Return type of `macroAction` (the framework's `const macro_t *`):
either the MACRO_NONE sentinel or a pointer to a macro step sequence. -/
inductive Macro_t where
  | MACRO_NONE
  | sequence (steps : List Nat)
deriving DecidableEq

/-- macroAction from the sketch: dispatches on the macro id, calling
versionInfoMacro for MACRO_VERSION_INFO and anyKeyMacro for MACRO_ANY,
and falls through the switch for any other id; it always returns
MACRO_NONE.  The result collects the (possibly updated) event, the
strings typed, and the returned macro pointer. -/
def macroAction (macro_id : Nat) (m : Nat) (version : String) (event : KeyEvent) :
    KeyEvent × List String × Macro_t :=
  if macro_id = MACRO_VERSION_INFO then
    (event, versionInfoMacro version event.state, Macro_t.MACRO_NONE)
  else if macro_id = MACRO_ANY then
    ( anyKeyMacro m event, [], Macro_t.MACRO_NONE)
  else
    (event, [], Macro_t.MACRO_NONE)

/-- Host power-management events delivered by the framework
(`HostPowerManagement::Event`). -/
inductive PowerEvent where
  | Suspend
  | Sleep
  | Resume
deriving DecidableEq

/-- toggleLedsOnSuspendResume from the sketch, acting on the LED driver
sink's enabled flag: Suspend and Sleep call `LEDControl.disable()`,
Resume calls `LEDControl.enable()`. -/
def toggleLedsOnSuspendResume (ledsEnabled : Bool) (event : PowerEvent) : Bool :=
  match event with
  | PowerEvent.Suspend => false
  | PowerEvent.Sleep => false
  | PowerEvent.Resume => true

/-- hostPowerManagementEventHandler from the sketch: delegates every
power event to toggleLedsOnSuspendResume. -/
def hostPowerManagementEventHandler (ledsEnabled : Bool) (event : PowerEvent) : Bool :=
  toggleLedsOnSuspendResume ledsEnabled event

/-- The two keymap lookup functions `Layer.getKey` can point at:
`Layer.getKeyFromPROGMEM` (the compiled-in keymap) or
`EEPROMKeymap.getKey` (the EEPROM-stored keymap). -/
inductive GetKeyFun where
  | getKeyFromPROGMEM
  | eepromGetKey
deriving DecidableEq

/-- toggleKeymapSource from the sketch: if `Layer.getKey` is the
PROGMEM lookup, switch it to the EEPROM lookup, otherwise switch it
back to the PROGMEM lookup. -/
def toggleKeymapSource (getKey : GetKeyFun) : GetKeyFun :=
  if getKey = GetKeyFun.getKeyFromPROGMEM then GetKeyFun.eepromGetKey
  else GetKeyFun.getKeyFromPROGMEM

/-- Actions bound by the sketch's USE_MAGIC_COMBOS call, named after the
wrapper functions they invoke. -/
inductive ComboAction where
  | toggleKeyboardProtocol
  | enterHardwareTestMode
  | toggleKeymapSource
deriving DecidableEq

/-- Physical key position (row, column) as named by the RxCy macros. -/
abbrev KeyPos : Type := Nat × Nat

def R3C6 : KeyPos := (3, 6)
def R2C6 : KeyPos := (2, 6)
def R3C7 : KeyPos := (3, 7)
def R0C0 : KeyPos := (0, 0)
def R0C6 : KeyPos := (0, 6)

/-- A magic-combo binding: its action and its required key positions. -/
structure Combo where
  action : ComboAction
  keys : List KeyPos
deriving DecidableEq

/-- First USE_MAGIC_COMBOS entry: toggleKeyboardProtocol on
Left Fn + Esc + Shift. -/
def comboNkro : Combo :=
  { action := ComboAction.toggleKeyboardProtocol, keys := [R3C6, R2C6, R3C7] }

/-- Second USE_MAGIC_COMBOS entry: enterHardwareTestMode on
Left Fn + Prog + LED. -/
def comboTest : Combo :=
  { action := ComboAction.enterHardwareTestMode, keys := [R3C6, R0C0, R0C6] }

/-- Third USE_MAGIC_COMBOS entry: toggleKeymapSource on
Left Fn + Prog + Shift. -/
def comboKeymapSource : Combo :=
  { action := ComboAction.toggleKeymapSource, keys := [R3C6, R0C0, R3C7] }

/-- The sketch's USE_MAGIC_COMBOS list, in declaration order. -/
def USE_MAGIC_COMBOS : List Combo := [comboNkro, comboTest, comboKeymapSource]

/-- The chord of the enterHardwareTestMode combo: {R3C6, R0C0, R0C6}. -/
def enterTestChord : List KeyPos := [R3C6, R0C0, R0C6]

/-- Modelled from the spec: a combo is satisfied when its required
position set is a subset of the currently pressed set (spec 4.3). -/
def comboSatisfied (pressed : List KeyPos) (cb : Combo) : Bool :=
  cb.keys.all (fun k => decide (k ∈ pressed))

/-- Modelled from the spec: a combo is fully released when none of its
required positions is pressed (the fully-released state from which a
chord must be reattempted, spec 4.3 and 5). -/
def comboReleased (pressed : List KeyPos) (cb : Combo) : Bool :=
  cb.keys.all (fun k => decide (k ∉ pressed))

/-- Modelled from the spec: one scan step of a single combo's latch
(spec 4.3).  While the chord is satisfied the latch is set and the
action fires only if the latch was clear; the latch clears only once
the chord is fully released; otherwise the latch is unchanged.  Returns
(new latch, fired this step). -/
def comboStep1 (latch : Bool) (pressed : List KeyPos) (cb : Combo) : Bool × Bool :=
  if comboSatisfied pressed cb then (true, !latch)
  else if comboReleased pressed cb then (false, false)
  else (latch, false)

/-- Modelled from the spec: one scan step of the combo matcher over a
binding list, threading one latch per combo and collecting the actions
fired this step in declaration order. -/
def comboStep : List Combo → List Bool → List KeyPos → List Bool × List ComboAction
  | [], _, _ => ([], [])
  | cb :: cbs, latches, pressed =>
    let s := comboStep1 (latches.headD false) pressed cb
    let rest := comboStep cbs latches.tail pressed
    (s.1 :: rest.1, (if s.2 then [cb.action] else []) ++ rest.2)

/-- Modelled from the spec: run of the combo matcher over a trace of
pressed-key sets (one per scan cycle) against the sketch's
USE_MAGIC_COMBOS bindings, producing the actions fired at each step. -/
def comboRun (latches : List Bool) : List (List KeyPos) → List (List ComboAction)
  | [] => []
  | p :: ps =>
    let s := comboStep USE_MAGIC_COMBOS latches p
    s.2 :: comboRun s.1 ps

/-- The layer index activated by `setup()` via `Layer.activate(1)`. -/
def setupActivatedLayer : Nat := 1

/-- Every declared layer's table has an entry at every matrix position
(the spec's full-table invariant holds for the sketch's KEYMAPS). -/
theorem keymaps_entries_present :
    ∀ g ∈ KEYMAPS, ∀ r < 4, ∀ c < 16, (entryAt g r c).isSome = true := by
  decide

/-- Resolution against the PRIMARY layer alone never exhausts the
stack, at any matrix position. -/
theorem primary_alone_resolves :
    ∀ r < 4, ∀ c < 16, resolveKey [KEYMAPS_PRIMARY] r c ≠ Resolution.configError := by
  decide

/-- Resolution over any stack of declared layers with PRIMARY at the
bottom never exhausts the stack. -/
theorem resolve_no_configError (r c : Nat) (hr : r < 4) (hc : c < 16) :
    ∀ stack : List LayerGrid, (∀ g ∈ stack, g ∈ KEYMAPS) →
      resolveKey (stack ++ [KEYMAPS_PRIMARY]) r c ≠ Resolution.configError := by
  intro stack
  induction stack with
  | nil =>
    intro _
    simpa using primary_alone_resolves r hr c hc
  | cons g rest ih =>
    intro hs
    have hg : g ∈ KEYMAPS := hs g (List.mem_cons_self g rest)
    have hpresent := keymaps_entries_present g hg r hr c hc
    obtain ⟨k, hk⟩ := Option.isSome_iff_exists.mp hpresent
    have hstep : resolveKey ((g :: rest) ++ [KEYMAPS_PRIMARY]) r c
        = if k = Key.blocked then Resolution.noKey
          else if k = Key.transparent then resolveKey (rest ++ [KEYMAPS_PRIMARY]) r c
          else Resolution.resolved k := by
      show resolveKey (g :: (rest ++ [KEYMAPS_PRIMARY])) r c = _
      simp only [resolveKey, hk]
    rw [hstep]
    by_cases hb : k = Key.blocked
    · simp [hb]
    · by_cases ht : k = Key.transparent
      · simpa [hb, ht] using ih (fun g' h' => hs g' (List.mem_cons_of_mem g h'))
      · simp [hb, ht]

/-- C1 (corrected): a Blocked entry on the layer checked first masks
everything below it, so the position resolves to no key whatever the
lower layers bind; the sketch's instance of this is position (3,2),
where SYMBOL is Blocked while PRIMARY binds Key_X.  (The claim's cited
position (0,3) is not Blocked on SYMBOL; see the counterexample.) -/
theorem C1_blocked_masks_lower (stack : List LayerGrid) (g : LayerGrid) (r c : Nat)
    (h : entryAt g r c = some Key.blocked) :
    resolveKey (g :: stack) r c = Resolution.noKey
    ∧ entryAt KEYMAPS_SYMBOL 3 2 = some Key.blocked
    ∧ entryAt KEYMAPS_PRIMARY 3 2 = some Key_X
    ∧ resolveKey [KEYMAPS_SYMBOL, KEYMAPS_PRIMARY] 3 2 = Resolution.noKey := by
  refine ⟨?_, by decide, by decide, by decide⟩
  simp [resolveKey, h]

/-- C1 counterexample: at position (0,3) the SYMBOL layer's entry is
Key_F3, not Blocked, PRIMARY's entry there is Key_3, not Key_E, and the
stack [PRIMARY, SYMBOL] resolves that position to Key_F3 rather than to
no key. -/
theorem C1_position_0_3_not_blocked :
    entryAt KEYMAPS_SYMBOL 0 3 = some Key_F3
    ∧ Key_F3 ≠ Key.blocked
    ∧ entryAt KEYMAPS_PRIMARY 0 3 = some Key_3
    ∧ Key_3 ≠ Key_E
    ∧ resolveKey [KEYMAPS_SYMBOL, KEYMAPS_PRIMARY] 0 3 = Resolution.resolved Key_F3 := by
  decide

/-- Witness for C1_blocked_masks_lower at stack [PRIMARY, SYMBOL] and
position (3,2). -/
theorem C1_blocked_masks_lower_witness :
    entryAt KEYMAPS_SYMBOL 3 2 = some Key.blocked
    ∧ (resolveKey (KEYMAPS_SYMBOL :: [KEYMAPS_PRIMARY]) 3 2 = Resolution.noKey
       ∧ entryAt KEYMAPS_SYMBOL 3 2 = some Key.blocked
       ∧ entryAt KEYMAPS_PRIMARY 3 2 = some Key_X
       ∧ resolveKey [KEYMAPS_SYMBOL, KEYMAPS_PRIMARY] 3 2 = Resolution.noKey) :=
  ⟨by decide, C1_blocked_masks_lower [KEYMAPS_PRIMARY] KEYMAPS_SYMBOL 3 2 (by decide)⟩

/-- C2: a Transparent entry on the layer checked first defers to the
rest of the active stack; in particular NAVIGATION (3,0) is Transparent,
PRIMARY (3,0) is Key_LeftAlt, and the stack [PRIMARY, NAVIGATION]
resolves (3,0) to Key_LeftAlt. -/
theorem C2_transparent_defers (stack : List LayerGrid) (g : LayerGrid) (r c : Nat)
    (h : entryAt g r c = some Key.transparent) :
    resolveKey (g :: stack) r c = resolveKey stack r c
    ∧ entryAt KEYMAPS_NAVIGATION 3 0 = some Key.transparent
    ∧ entryAt KEYMAPS_PRIMARY 3 0 = some Key_LeftAlt
    ∧ resolveKey [KEYMAPS_NAVIGATION, KEYMAPS_PRIMARY] 3 0
        = Resolution.resolved Key_LeftAlt := by
  refine ⟨?_, by decide, by decide, by decide⟩
  simp [resolveKey, h]

/-- Witness for C2_transparent_defers at stack [PRIMARY, NAVIGATION]
and position (3,0). -/
theorem C2_transparent_defers_witness :
    entryAt KEYMAPS_NAVIGATION 3 0 = some Key.transparent
    ∧ (resolveKey (KEYMAPS_NAVIGATION :: [KEYMAPS_PRIMARY]) 3 0
         = resolveKey [KEYMAPS_PRIMARY] 3 0
       ∧ entryAt KEYMAPS_NAVIGATION 3 0 = some Key.transparent
       ∧ entryAt KEYMAPS_PRIMARY 3 0 = some Key_LeftAlt
       ∧ resolveKey [KEYMAPS_NAVIGATION, KEYMAPS_PRIMARY] 3 0
           = Resolution.resolved Key_LeftAlt) :=
  ⟨by decide, C2_transparent_defers [KEYMAPS_PRIMARY] KEYMAPS_NAVIGATION 3 0 (by decide)⟩

/-- C3: the base layer of the active stack is PRIMARY (setup calls
Layer.activate(1)), PRIMARY has zero Transparent entries, and therefore
resolution over any stack of declared layers with PRIMARY at the bottom
terminates with a result at every matrix position — it never exhausts
the stack with a Transparent chain (the spec's ConfigurationError). -/
theorem C3_no_transparent_chain (stack : List LayerGrid)
    (hs : ∀ g ∈ stack, g ∈ KEYMAPS) (r c : Nat) (hr : r < 4) (hc : c < 16) :
    KEYMAPS[setupActivatedLayer]? = some KEYMAPS_PRIMARY
    ∧ (KEYMAPS_PRIMARY.flatten.filter (fun k => k = Key.transparent)).length = 0
    ∧ resolveKey (stack ++ [KEYMAPS_PRIMARY]) r c ≠ Resolution.configError :=
  ⟨by decide, by decide, resolve_no_configError r c hr hc stack hs⟩

/-- Witness for C3_no_transparent_chain with NAVIGATION stacked above
PRIMARY at position (3,0). -/
theorem C3_no_transparent_chain_witness :
    KEYMAPS[setupActivatedLayer]? = some KEYMAPS_PRIMARY
    ∧ (KEYMAPS_PRIMARY.flatten.filter (fun k => k = Key.transparent)).length = 0
    ∧ resolveKey ([KEYMAPS_NAVIGATION] ++ [KEYMAPS_PRIMARY]) 3 0 ≠ Resolution.configError :=
  C3_no_transparent_chain [KEYMAPS_NAVIGATION] (by decide) 3 0 (by decide) (by decide)

/-- One step of the combo matcher over the sketch's three bindings,
unfolded into the three per-combo latch updates. -/
theorem comboStep_magic (b0 b1 b2 : Bool) (p : List KeyPos) :
    comboStep USE_MAGIC_COMBOS [b0, b1, b2] p
      = ([(comboStep1 b0 p comboNkro).1, (comboStep1 b1 p comboTest).1,
          (comboStep1 b2 p comboKeymapSource).1],
         (if (comboStep1 b0 p comboNkro).2 then [ComboAction.toggleKeyboardProtocol] else [])
           ++ ((if (comboStep1 b1 p comboTest).2 then [ComboAction.enterHardwareTestMode] else [])
             ++ ((if (comboStep1 b2 p comboKeymapSource).2 then [ComboAction.toggleKeymapSource] else [])
               ++ ([] : List ComboAction)))) := rfl

/-- While the enterHardwareTestMode chord stays fully pressed and its
latch is set, no step of the run fires enterHardwareTestMode again,
whatever the other two latches do. -/
theorem combo_hold_no_refire :
    ∀ ps : List (List KeyPos), (∀ p ∈ ps, ∀ k ∈ enterTestChord, k ∈ p) →
    ∀ b0 b2 : Bool, ∀ fired ∈ comboRun [b0, true, b2] ps,
      ComboAction.enterHardwareTestMode ∉ fired := by
  intro ps
  induction ps with
  | nil =>
    intro _ b0 b2 fired hf
    simp [comboRun] at hf
  | cons p ps ih =>
    intro hp b0 b2 fired hf
    have hsat : comboSatisfied p comboTest = true := by
      simp only [comboSatisfied, comboTest, List.all_eq_true, decide_eq_true_eq]
      exact hp p (List.mem_cons_self p ps)
    have hs1 : comboStep1 true p comboTest = (true, false) := by
      simp [comboStep1, hsat]
    have hrun : comboRun [b0, true, b2] (p :: ps)
        = (comboStep USE_MAGIC_COMBOS [b0, true, b2] p).2
          :: comboRun (comboStep USE_MAGIC_COMBOS [b0, true, b2] p).1 ps := rfl
    rw [comboStep_magic, hs1] at hrun
    rw [hrun] at hf
    rcases List.mem_cons.mp hf with heq | hmem
    · subst heq
      cases h0 : (comboStep1 b0 p comboNkro).2
        <;> cases h2 : (comboStep1 b2 p comboKeymapSource).2
        <;> simp [h0, h2]
    · exact ih (fun q hq => hp q (List.mem_cons_of_mem p hq))
        (comboStep1 b0 p comboNkro).1 (comboStep1 b2 p comboKeymapSource).1 fired hmem

/-- C4: pressing the chord {R3C6, R0C0, R0C6} fires enterHardwareTestMode
exactly once per chord completion: a completed chord fires it on the
completing scan step and on no later step while held (first conjunct and
the universal hold property), and after a full release a re-press fires
it again (last conjunct). -/
theorem C4_combo_fires_once_per_completion (ps : List (List KeyPos))
    (hp : ∀ p ∈ ps, ∀ k ∈ enterTestChord, k ∈ p) (b0 b2 : Bool) :
    comboRun [false, false, false] [enterTestChord, enterTestChord, enterTestChord]
      = [[ComboAction.enterHardwareTestMode], [], []]
    ∧ (∀ fired ∈ comboRun [b0, true, b2] ps, ComboAction.enterHardwareTestMode ∉ fired)
    ∧ comboRun [false, false, false] [enterTestChord, enterTestChord, [], enterTestChord]
      = [[ComboAction.enterHardwareTestMode], [], [], [ComboAction.enterHardwareTestMode]] :=
  ⟨by decide, combo_hold_no_refire ps hp b0 b2, by decide⟩

/-- Witness for C4_combo_fires_once_per_completion with one held scan
step after the firing step. -/
theorem C4_combo_fires_once_per_completion_witness :
    (∀ p ∈ [enterTestChord], ∀ k ∈ enterTestChord, k ∈ p)
    ∧ (comboRun [false, false, false] [enterTestChord, enterTestChord, enterTestChord]
         = [[ComboAction.enterHardwareTestMode], [], []]
       ∧ (∀ fired ∈ comboRun [false, true, false] [enterTestChord],
            ComboAction.enterHardwareTestMode ∉ fired)
       ∧ comboRun [false, false, false] [enterTestChord, enterTestChord, [], enterTestChord]
         = [[ComboAction.enterHardwareTestMode], [], [], [ComboAction.enterHardwareTestMode]]) :=
  ⟨by decide, C4_combo_fires_once_per_completion [enterTestChord] (by decide) false false⟩

/-- Every offset below 36 added to the Key_A code lands in the fixed
36-symbol alphanumeric alphabet. -/
theorem mem_alphanumericCodes : ∀ k, k < 36 → (4 + k) ∈ alphanumericCodes := by
  decide

/-- C5: on every toggled-on activation, whatever the millis() reading,
anyKeyMacro selects a key code inside the fixed 36-symbol alphabet of 26
letters plus 10 digits and clears the modifier flags to zero; on any
other transition (held or toggled-off) it leaves the event untouched, so
the selection made at the toggled-on transition stays stable until
release. -/
theorem C5_anyKey_alphanumeric_no_flags (m : Nat) (e : KeyEvent)
    (he : e.state = Transition.toggledOn)
    (e2 : KeyEvent) (he2 : e2.state ≠ Transition.toggledOn) :
    ( anyKeyMacro m e).key.keyCode ∈ alphanumericCodes
    ∧ ( anyKeyMacro m e).key.flags = 0
    ∧ anyKeyMacro m e2 = e2 := by
  have hmod : m % 36 < 36 := Nat.mod_lt m (by decide)
  have hlt : Key_A_code + m % 36 < 256 := by
    unfold Key_A_code
    omega
  have hcalc : ( anyKeyMacro m e).key
      = { keyCode := Key_A_code + m % 36, flags := 0 } := by
    simp [anyKeyMacro, keyToggledOn, he, Nat.mod_eq_of_lt hlt]
  refine ⟨?_, ?_, ?_⟩
  · rw [hcalc]
    exact mem_alphanumericCodes (m % 36) hmod
  · rw [hcalc]
  · simp [anyKeyMacro, keyToggledOn, he2]

/-- Witness for C5_anyKey_alphanumeric_no_flags at millis() = 77 with a
toggled-on event and a held event. -/
theorem C5_anyKey_alphanumeric_no_flags_witness :
    ( anyKeyMacro 77 { state := Transition.toggledOn, key := { keyCode := 0, flags := 7 } }).key.keyCode
      ∈ alphanumericCodes
    ∧ ( anyKeyMacro 77 { state := Transition.toggledOn, key := { keyCode := 0, flags := 7 } }).key.flags = 0
    ∧ anyKeyMacro 77 { state := Transition.held, key := { keyCode := 3, flags := 1 } }
        = { state := Transition.held, key := { keyCode := 3, flags := 1 } } :=
  C5_anyKey_alphanumeric_no_flags 77
    { state := Transition.toggledOn, key := { keyCode := 0, flags := 7 } } rfl
    { state := Transition.held, key := { keyCode := 3, flags := 1 } } (by decide)

/-- C6: versionInfoMacro emits the fixed firmware banner followed by the
version string exactly once on a toggled-on transition, and emits
nothing on any other transition. -/
theorem C6_versionInfo_once (version : String) (s : Transition) :
    (s = Transition.toggledOn →
      versionInfoMacro version s = ["Keyboardio Model 100 - Firmware version ", version])
    ∧ (s ≠ Transition.toggledOn → versionInfoMacro version s = []) := by
  constructor
  · intro h
    simp [versionInfoMacro, keyToggledOn, h]
  · intro h
    simp [versionInfoMacro, keyToggledOn, h]

/-- Witness for C6_versionInfo_once on the toggled-on and held
transitions. -/
theorem C6_versionInfo_once_witness :
    versionInfoMacro "0.93.0" Transition.toggledOn
      = ["Keyboardio Model 100 - Firmware version ", "0.93.0"]
    ∧ versionInfoMacro "0.93.0" Transition.held = [] :=
  ⟨(C6_versionInfo_once "0.93.0" Transition.toggledOn).1 rfl,
   (C6_versionInfo_once "0.93.0" Transition.held).2 (by decide)⟩

/-- C7: for every macro id outside {MACRO_VERSION_INFO, MACRO_ANY} and
every key event, macroAction performs no action: the event is returned
unchanged, nothing is typed, and the result is MACRO_NONE rather than
any error. -/
theorem C7_unrecognized_id_noop (macro_id : Nat)
    (h1 : macro_id ≠ MACRO_VERSION_INFO) (h2 : macro_id ≠ MACRO_ANY)
    (m : Nat) (version : String) (event : KeyEvent) :
    macroAction macro_id m version event = (event, [], Macro_t.MACRO_NONE) := by
  simp [macroAction, h1, h2]

/-- Witness for C7_unrecognized_id_noop at macro id 2. -/
theorem C7_unrecognized_id_noop_witness :
    (2 : Nat) ≠ MACRO_VERSION_INFO ∧ (2 : Nat) ≠ MACRO_ANY
    ∧ macroAction 2 5 "0.93.0" { state := Transition.toggledOn, key := { keyCode := 0, flags := 0 } }
        = ({ state := Transition.toggledOn, key := { keyCode := 0, flags := 0 } }, [],
           Macro_t.MACRO_NONE) :=
  ⟨by decide, by decide,
   C7_unrecognized_id_noop 2 (by decide) (by decide) 5 "0.93.0"
     { state := Transition.toggledOn, key := { keyCode := 0, flags := 0 } }⟩

/-- C8: the handler's only reaction to a host power-management event is
the binary LED enable: Suspend and Sleep disable the LED driver sink,
Resume enables it, the handler just delegates to
toggleLedsOnSuspendResume, and the outcome carries no other state — it
is independent of the previous LED state. -/
theorem C8_power_events_binary_led (s s2 : Bool) :
    hostPowerManagementEventHandler s PowerEvent.Suspend = false
    ∧ hostPowerManagementEventHandler s PowerEvent.Sleep = false
    ∧ hostPowerManagementEventHandler s PowerEvent.Resume = true
    ∧ (∀ e, hostPowerManagementEventHandler s e = toggleLedsOnSuspendResume s e)
    ∧ (∀ e, hostPowerManagementEventHandler s e = hostPowerManagementEventHandler s2 e) := by
  refine ⟨rfl, rfl, rfl, fun e => rfl, fun e => ?_⟩
  cases e <;> rfl

/-- C9: toggling the keymap source is an involution on the two lookup
sources, and a single toggle always switches to the other source. -/
theorem C9_toggleKeymapSource_involutive (s : GetKeyFun) :
    toggleKeymapSource (toggleKeymapSource s) = s ∧ toggleKeymapSource s ≠ s := by
  cases s <;> exact ⟨by decide, by decide⟩

/-- C10: macroAction returns MACRO_NONE for every macro id and every key
event — the dispatcher never returns a macro sequence of its own. -/
theorem C10_macroAction_returns_none (macro_id m : Nat) (version : String) (event : KeyEvent) :
    (macroAction macro_id m version event).2.2 = Macro_t.MACRO_NONE := by
  by_cases h1 : macro_id = MACRO_VERSION_INFO
  · simp [macroAction, h1]
  · by_cases h2 : macro_id = MACRO_ANY
    · simp [macroAction, h1, h2, MACRO_VERSION_INFO, MACRO_ANY]
    · simp [macroAction, h1, h2]
